import Mathlib

/-!
Shallow embedding of `src/jetson/jetson_jtop_helper.py` (`get_jetson_info`).

Python values that flow through the script are modelled by `PyVal`
(strings, ints, rationals for floats, bools, `None`, lists, dicts as
association lists in insertion order).  Exceptions are modelled by
`PyErr`, distinguishing the backend-specific `JtopException` from every
other exception, mirroring the two `except` clauses at the bottom of the
function.  The external `jtop` handle is a black box: a `Handle` records
one behaviour of it — the results of the two `jetson.ok()` calls, the
outcome of the two management actions, and the value (or exception) each
category property read produces.  `get_jetson_info` is then a total Lean
function of the inputs and of the handle behaviour.
-/

set_option maxHeartbeats 1000000

namespace JetsonHelper

/-- A Python value as used by the script: JSON-able primitives, lists and
(string-keyed, insertion-ordered) dicts. Floats are modelled as rationals. -/
inductive PyVal where
  | vstr : String → PyVal
  | vint : Int → PyVal
  | vnum : ℚ → PyVal
  | vbool : Bool → PyVal
  | vnone : PyVal
  | vlist : List PyVal → PyVal
  | vdict : List (String × PyVal) → PyVal
deriving Repr

/-- A raised Python exception: either the backend-specific `JtopException`
or any other exception, each carrying `str(e)`. -/
inductive PyErr where
  | jtop : String → PyErr
  | other : String → PyErr
deriving Repr, DecidableEq

/-- `str(e)` of the exception, as used by the inline action handlers. -/
def PyErr.msg : PyErr → String
  | .jtop m => m
  | .other m => m

/-- The top-level error message: lines 148-151 of the source prefix the
message according to the exception's kind. -/
def PyErr.render : PyErr → String
  | .jtop m => "JtopException: " ++ m
  | .other m => "Unexpected error: " ++ m

/-- Python type name of a value (for exception messages). -/
def PyVal.typeName : PyVal → String
  | .vstr _ => "str"
  | .vint _ => "int"
  | .vnum _ => "float"
  | .vbool _ => "bool"
  | .vnone => "NoneType"
  | .vlist _ => "list"
  | .vdict _ => "dict"

/-- `isinstance(v, list)`. -/
def PyVal.isList : PyVal → Bool
  | .vlist _ => true
  | _ => false

/-- Python truthiness of a value. -/
def PyVal.truthy : PyVal → Bool
  | .vstr s => s ≠ ""
  | .vint n => n ≠ 0
  | .vnum q => q ≠ 0
  | .vbool b => b
  | .vnone => false
  | .vlist xs => !xs.isEmpty
  | .vdict kvs => !kvs.isEmpty

/-- First binding of key `k` in a dict body, or the default `d`. -/
def dgetD : List (String × PyVal) → String → PyVal → PyVal
  | [], _, d => d
  | (k', x) :: rest, k, d => if k' = k then x else dgetD rest k d

/-- First binding of key `k` in a dict body, if present. -/
def dfind : List (String × PyVal) → String → Option PyVal
  | [], _ => none
  | (k', x) :: rest, k => if k' = k then some x else dfind rest k

/-- `v.get(k, d)`: defaulted dict lookup; on a non-dict, `.get` raises
`AttributeError` (any non-`JtopException` exception). -/
def pyGet (v : PyVal) (k : String) (d : PyVal) : Except PyErr PyVal :=
  match v with
  | .vdict kvs => .ok (dgetD kvs k d)
  | _ => .error (.other ("'" ++ v.typeName ++ "' object has no attribute 'get'"))

/-- `v[k]` for a string key: `KeyError` (whose `str` is the quoted key)
when missing, `TypeError` on a non-dict. -/
def pySubKey (v : PyVal) (k : String) : Except PyErr PyVal :=
  match v with
  | .vdict kvs =>
    match dfind kvs k with
    | some x => .ok x
    | none => .error (.other ("'" ++ k ++ "'"))
  | _ => .error (.other ("'" ++ v.typeName ++ "' object is not subscriptable"))

/-- `v.items()`: only dicts have it. -/
def pyItems (v : PyVal) : Except PyErr (List (String × PyVal)) :=
  match v with
  | .vdict kvs => .ok kvs
  | _ => .error (.other ("'" ++ v.typeName ++ "' object has no attribute 'items'"))

/-- `for x in v`: lists yield elements, dicts their keys, strings their
characters; anything else raises `TypeError`. -/
def pyIterElems (v : PyVal) : Except PyErr (List PyVal) :=
  match v with
  | .vlist xs => .ok xs
  | .vdict kvs => .ok (kvs.map fun kv => .vstr kv.1)
  | .vstr s => .ok (s.toList.map fun ch => .vstr (String.mk [ch]))
  | _ => .error (.other ("'" ++ v.typeName ++ "' object is not iterable"))

/-- `len(v)`. -/
def pyLen (v : PyVal) : Except PyErr Nat :=
  match v with
  | .vlist xs => .ok xs.length
  | .vdict kvs => .ok kvs.length
  | .vstr s => .ok s.toList.length
  | _ => .error (.other ("object of type '" ++ v.typeName ++ "' has no len()"))

/-- `v[i]` for a non-negative integer index: `IndexError` past the end of
a list, character extraction on strings, `KeyError`/`TypeError` otherwise. -/
def pyIdx (v : PyVal) (i : Nat) : Except PyErr PyVal :=
  match v with
  | .vlist xs =>
    if i < xs.length then .ok (xs.getD i .vnone)
    else .error (.other "list index out of range")
  | .vstr s =>
    if i < s.toList.length then .ok (.vstr (String.mk [s.toList.getD i ' ']))
    else .error (.other "string index out of range")
  | .vdict _ => .error (.other (toString i))
  | _ => .error (.other ("'" ++ v.typeName ++ "' object is not subscriptable"))

/-- Round half to even (Python's `round`) of a rational to an integer. -/
def roundHalfEven (q : ℚ) : Int :=
  let f : Int := ⌊q⌋
  if q - f < 1/2 then f
  else if (1:ℚ)/2 < q - f then f + 1
  else if f % 2 = 0 then f else f + 1

/-- `round(v, 1)`: ints (and bools, which are ints) are returned
unchanged, floats are rounded to one decimal half-to-even, anything else
raises `TypeError`. -/
def pyRound1 : PyVal → Except PyErr PyVal
  | .vint n => .ok (.vint n)
  | .vbool b => .ok (.vint (if b then 1 else 0))
  | .vnum q => .ok (.vnum ((roundHalfEven (q * 10) : ℚ) / 10))
  | v => .error (.other ("type " ++ v.typeName ++ " doesn't define __round__ method"))

/-- The value assigned to `jetson.nvpmodel`: an int when `int(s)` parses,
else the string itself (lines 25-28). -/
inductive NvpVal where
  | int : Int → NvpVal
  | str : String → NvpVal
deriving Repr, DecidableEq

/-- `str(val)` as interpolated into the `nvpmodel_action` message. -/
def NvpVal.toPyStr : NvpVal → String
  | .int n => toString n
  | .str s => s

/-- Whitespace accepted by Python's `int(str)`. -/
def isPySpace (c : Char) : Bool :=
  c = ' ' ∨ c = '\t' ∨ c = '\n' ∨ c = '\r' ∨ c = '\x0b' ∨ c = '\x0c'

/-- Digit tail of Python's `int(str)` grammar: digits with single
underscores allowed between digits. -/
def digitsCore : List Char → Nat → Option Nat
  | [], acc => some acc
  | '_' :: c2 :: cs2, acc =>
    if c2.isDigit then digitsCore cs2 (acc * 10 + (c2.toNat - 48)) else none
  | ['_'], _ => none
  | c :: cs, acc =>
    if c.isDigit then digitsCore cs (acc * 10 + (c.toNat - 48)) else none

/-- An unsigned digit run (at least one digit, underscores between digits). -/
def parseUnsigned : List Char → Option Nat
  | c :: cs => if c.isDigit then digitsCore cs (c.toNat - 48) else none
  | [] => none

/-- Python's `int(s)` on a string: optional surrounding whitespace, an
optional sign, then a digit run; `none` models the `ValueError`. -/
def pyIntParse (s : String) : Option Int :=
  let cs := ((s.toList.dropWhile isPySpace).reverse.dropWhile isPySpace).reverse
  match cs with
  | '+' :: rest => (parseUnsigned rest).map Int.ofNat
  | '-' :: rest => (parseUnsigned rest).map (fun n => -(n : Int))
  | rest => (parseUnsigned rest).map Int.ofNat

/-- Lines 25-28: try `int(set_nvpmodel)`, fall back to the string. -/
def nvpVal (s : String) : NvpVal :=
  match pyIntParse s with
  | some n => .int n
  | none => .str s

/-- The state of the jtop `nvpmodel` object when it exists (`.name`,
`.id`, `.models`); `jetson.nvpmodel` may also be `None`/falsy. -/
structure NvpObj where
  name : String
  id : Int
  models : List String

/-- The state of the jtop `jetson_clocks` object when it exists: its
truthiness (which this backend uses to encode "active"), `.status` and
`.boot`. -/
structure ClocksObj where
  truthy : Bool
  status : String
  boot : Bool

/-- One behaviour of the external jtop handle: results of the first and
second `jetson.ok()` calls, outcomes of the two management actions, and
the value or exception produced by each category property read. -/
structure Handle where
  ok1 : Bool
  ok2 : Bool
  clocksSet : Except PyErr Unit
  setNvp : NvpVal → Except PyErr Unit
  board : Except PyErr PyVal
  nvpmodelObj : Except PyErr (Option NvpObj)
  clocksObj : Except PyErr (Option ClocksObj)
  cpu : Except PyErr PyVal
  gpu : Except PyErr PyVal
  engine : Except PyErr PyVal
  memory : Except PyErr PyVal
  temperature : Except PyErr PyVal
  fan : Except PyErr PyVal
  processes : Except PyErr PyVal
  disk : Except PyErr PyVal

/-- Instrumentation of the management-action side effects: whether the
clocks action was attempted and which value (if any) was assigned to the
backend's power-model property. -/
structure Trace where
  clocksAttempted : Bool
  nvpAssigned : Option NvpVal
deriving Repr, DecidableEq

/-- Lines 14-20: the clocks action and its inline `except Exception`. -/
def clocksActionPart (h : Handle) : List (String × PyVal) :=
  match h.clocksSet with
  | .ok _ => [("clocks_action", .vstr "Enabled jetson_clocks and set to boot")]
  | .error e => [("clocks_action_error", .vstr e.msg)]

/-- Lines 22-34: the nvpmodel action and its inline `except Exception`. -/
def nvpActionPart (h : Handle) (s : String) : List (String × PyVal) :=
  match h.setNvp (nvpVal s) with
  | .ok _ => [("nvpmodel_action", .vstr ("Set nvpmodel to " ++ (nvpVal s).toPyStr))]
  | .error e => [("nvpmodel_action_error", .vstr e.msg)]

/-- Lines 13-34: the action entries accumulated in `data` before the
snapshot categories. -/
def actionsFor (h : Handle) (enable_clocks : Bool) (set_nvpmodel : Option String) :
    List (String × PyVal) :=
  if h.ok1 then
    (if enable_clocks then clocksActionPart h else []) ++
    (match set_nvpmodel with
     | some s => nvpActionPart h s
     | none => [])
  else []

/-- The thirteen snapshot categories, in source order. -/
structure Cats where
  board : PyVal
  libraries : PyVal
  nvpmodel : PyVal
  jetson_clocks : PyVal
  cpu : PyVal
  gpu : PyVal
  engines : PyVal
  ram : PyVal
  swap : PyVal
  temperature : PyVal
  fan : PyVal
  processes : PyVal
  disk : PyVal

/-- The categories laid out in `data` in insertion order (lines 39-143). -/
def catsList (c : Cats) : List (String × PyVal) :=
  [("board", c.board), ("libraries", c.libraries), ("nvpmodel", c.nvpmodel),
   ("jetson_clocks", c.jetson_clocks), ("cpu", c.cpu), ("gpu", c.gpu),
   ("engines", c.engines), ("ram", c.ram), ("swap", c.swap),
   ("temperature", c.temperature), ("fan", c.fan), ("processes", c.processes),
   ("disk", c.disk)]

/-- Line 73: `sum(1 for c in ... if c.get('online', False))`. -/
def onlineCount : List PyVal → Except PyErr Nat
  | [] => .ok 0
  | c :: rest => do
    let o ← pyGet c "online" (.vbool false)
    let n ← onlineCount rest
    .ok ((if o.truthy then 1 else 0) + n)

/-- Lines 89-93: the inner engine loop over one group's items. -/
def engineInner : List (String × PyVal) → Except PyErr (List (String × PyVal))
  | [] => .ok []
  | (name, info) :: rest => do
    let online ← pyGet info "online" (.vbool false)
    let cur ← pyGet info "cur" (.vint 0)
    let tail ← engineInner rest
    .ok ((name, .vdict [("online", online), ("cur", cur)]) :: tail)

/-- Lines 87-93: the outer engine loop over groups. -/
def engineEntries : List (String × PyVal) → Except PyErr (List (String × PyVal))
  | [] => .ok []
  | (group, items) :: rest => do
    let its ← pyItems items
    let inner ← engineInner its
    let tail ← engineEntries rest
    .ok ((group, .vdict inner) :: tail)

/-- Line 111: the temperature dict comprehension — keep sensors whose
`online` is truthy, indexing `v['temp']` and rounding. -/
def tempEntries : List (String × PyVal) → Except PyErr (List (String × PyVal))
  | [] => .ok []
  | (k, v) :: rest => do
    let online ← pyGet v "online" (.vbool false)
    if online.truthy then
      let t ← pySubKey v "temp"
      let r ← pyRound1 t
      let tail ← tempEntries rest
      .ok ((k, r) :: tail)
    else tempEntries rest

/-- `fan_profile == "Unknown"` (Python `==` against a string literal). -/
def isUnknownStr : PyVal → Bool
  | .vstr s => s = "Unknown"
  | _ => false

/-- Lines 127-135: the process loop; records of length at least 10 yield
`{pid, user, gpu_mem, name}` from positions 0, 1, 8, 9. -/
def procEntries : List PyVal → Except PyErr (List PyVal)
  | [] => .ok []
  | p :: rest => do
    let n ← pyLen p
    if 10 ≤ n then
      let pid ← pyIdx p 0
      let user ← pyIdx p 1
      let gmem ← pyIdx p 8
      let name ← pyIdx p 9
      let tail ← procEntries rest
      .ok (.vdict [("pid", pid), ("user", user), ("gpu_mem", gmem), ("name", name)] :: tail)
    else procEntries rest

/-- Lines 37-143: the category reads, in source order.  Any exception
raised by a read propagates out (category reads are not individually
isolated). -/
def snapshotCats (h : Handle) : Except PyErr Cats := do
  -- lines 38-45: board
  let board ← h.board
  let hw ← pyGet board "hardware" (.vdict [])
  let model ← pyGet hw "Model" (.vstr "Unknown")
  let serial ← pyGet hw "Serial Number" (.vstr "Unknown")
  let l4t ← pyGet hw "L4T" (.vstr "Unknown")
  let jetpack ← pyGet hw "Jetpack" (.vstr "Unknown")
  let modul ← pyGet hw "Module" (.vstr "Unknown")
  -- line 48: libraries
  let libraries ← pyGet board "libraries" (.vdict [])
  -- lines 51-55: nvpmodel
  let nvp ← h.nvpmodelObj
  let nvpCat : PyVal :=
    .vdict [("name", match nvp with | some o => .vstr o.name | none => .vstr "Unknown"),
            ("id", match nvp with | some o => .vint o.id | none => .vint (-1)),
            ("models", match nvp with
                       | some o => .vlist (o.models.map PyVal.vstr)
                       | none => .vlist [])]
  -- lines 58-65: jetson_clocks (the `if` tests the object's truthiness)
  let cl ← h.clocksObj
  let jcCat : PyVal :=
    match cl with
    | some o =>
      if o.truthy then
        .vdict [("active", .vbool o.truthy), ("status", .vstr o.status),
                ("boot", .vbool o.boot)]
      else
        .vdict [("active", .vbool false), ("status", .vstr "inactive"),
                ("boot", .vbool false)]
    | none =>
      .vdict [("active", .vbool false), ("status", .vstr "inactive"),
              ("boot", .vbool false)]
  -- lines 68-74: cpu
  let cpu_info ← h.cpu
  let tot ← pyGet cpu_info "total" (.vdict [])
  let user ← pyGet tot "user" (.vint 0)
  let tu ← pyRound1 user
  let sys ← pyGet tot "system" (.vint 0)
  let ts ← pyRound1 sys
  let idle ← pyGet tot "idle" (.vint 0)
  let ti ← pyRound1 idle
  let cpus ← pyGet cpu_info "cpu" (.vlist [])
  let cpuElems ← pyIterElems cpus
  let oc ← onlineCount cpuElems
  -- lines 77-82: gpu
  let gpu_info ← h.gpu
  let gst ← pyGet gpu_info "status" (.vdict [])
  let load ← pyGet gst "load" (.vint 0)
  let gfreq ← pyGet gpu_info "freq" (.vdict [])
  let curf ← pyGet gfreq "cur" (.vint 0)
  let maxf ← pyGet gfreq "max" (.vint 0)
  -- lines 85-93: engines
  let engines ← h.engine
  let egItems ← pyItems engines
  let egs ← engineEntries egItems
  -- lines 96-101: ram
  let memory ← h.memory
  let ram ← pyGet memory "RAM" (.vdict [])
  let rtot ← pyGet ram "tot" (.vint 0)
  let rused ← pyGet ram "used" (.vint 0)
  let rfree ← pyGet ram "free" (.vint 0)
  -- lines 104-107: swap (only `total` and `used` are emitted)
  let swap ← pyGet memory "SWAP" (.vdict [])
  let stot ← pyGet swap "tot" (.vint 0)
  let sused ← pyGet swap "used" (.vint 0)
  -- lines 110-111: temperature
  let temp_info ← h.temperature
  let tItems ← pyItems temp_info
  let temps ← tempEntries tItems
  -- lines 114-123: fan
  let fan_info ← h.fan
  let sProbe ← pyGet fan_info "speed" .vnone
  let speed ←
    if sProbe.isList then do
      let s2 ← pyGet fan_info "speed" (.vlist [.vint 0])
      pyIdx s2 0
    else pyGet fan_info "speed" (.vint 0)
  let p1 ← pyGet fan_info "profile" (.vstr "Unknown")
  let profile ←
    if isUnknownStr p1 then do
      let ctrl ← pyGet fan_info "control" (.vstr "Unknown")
      pyGet fan_info "governor" ctrl
    else pure p1
  -- lines 126-135: processes
  let procsV ← h.processes
  let procElems ← pyIterElems procsV
  let procs ← procEntries procElems
  -- lines 138-143: disk
  let disk_info ← h.disk
  let dtot ← pyGet disk_info "total" (.vint 0)
  let dused ← pyGet disk_info "used" (.vint 0)
  let davail ← pyGet disk_info "available" (.vint 0)
  pure
    { board := .vdict [("model", model), ("serial", serial), ("l4t", l4t),
                       ("jetpack", jetpack), ("module", modul)]
      libraries := libraries
      nvpmodel := nvpCat
      jetson_clocks := jcCat
      cpu := .vdict [("total_user", tu), ("total_system", ts), ("total_idle", ti),
                     ("online_cores", .vint oc)]
      gpu := .vdict [("load", load), ("curr_freq", curf), ("max_freq", maxf)]
      engines := .vdict egs
      ram := .vdict [("total", rtot), ("used", rused), ("free", rfree)]
      swap := .vdict [("total", stot), ("used", sused)]
      temperature := .vdict temps
      fan := .vdict [("speed", speed), ("profile", profile)]
      processes := .vlist procs
      disk := .vdict [("total", dtot), ("used", dused), ("available", davail)] }

/-- `get_jetson_info(enable_clocks, set_nvpmodel)`, lines 8-151.
`acq` is the result of the handle acquisition `with jtop() as jetson`;
the returned pair is the dict the function returns together with the
action-effect trace. -/
def get_jetson_info (enable_clocks : Bool) (set_nvpmodel : Option String)
    (acq : Except PyErr Handle) : List (String × PyVal) × Trace :=
  match acq with
  | .error e => ([("error", .vstr e.render)], ⟨false, none⟩)
  | .ok h =>
    (if h.ok2 then
       match snapshotCats h with
       | .ok c => actionsFor h enable_clocks set_nvpmodel ++ catsList c
       | .error e => [("error", .vstr e.render)]
     else
       [("error", .vstr "jtop is not ok (service might not be running)")],
     ⟨h.ok1 && enable_clocks,
      if h.ok1 then set_nvpmodel.map nvpVal else none⟩)

/-- A benign handle: ready at both checks, both actions succeed, every
category read returns an empty structure. -/
def baseHandle : Handle where
  ok1 := true
  ok2 := true
  clocksSet := .ok ()
  setNvp := fun _ => .ok ()
  board := .ok (.vdict [])
  nvpmodelObj := .ok none
  clocksObj := .ok none
  cpu := .ok (.vdict [])
  gpu := .ok (.vdict [])
  engine := .ok (.vdict [])
  memory := .ok (.vdict [])
  temperature := .ok (.vdict [])
  fan := .ok (.vdict [])
  processes := .ok (.vlist [])
  disk := .ok (.vdict [])

/-- The snapshot the benign handle produces: every category at its
default values. -/
def baseSnap : List (String × PyVal) :=
  [("board", .vdict [("model", .vstr "Unknown"), ("serial", .vstr "Unknown"),
                     ("l4t", .vstr "Unknown"), ("jetpack", .vstr "Unknown"),
                     ("module", .vstr "Unknown")]),
   ("libraries", .vdict []),
   ("nvpmodel", .vdict [("name", .vstr "Unknown"), ("id", .vint (-1)),
                        ("models", .vlist [])]),
   ("jetson_clocks", .vdict [("active", .vbool false), ("status", .vstr "inactive"),
                             ("boot", .vbool false)]),
   ("cpu", .vdict [("total_user", .vint 0), ("total_system", .vint 0),
                   ("total_idle", .vint 0), ("online_cores", .vint 0)]),
   ("gpu", .vdict [("load", .vint 0), ("curr_freq", .vint 0), ("max_freq", .vint 0)]),
   ("engines", .vdict []),
   ("ram", .vdict [("total", .vint 0), ("used", .vint 0), ("free", .vint 0)]),
   ("swap", .vdict [("total", .vint 0), ("used", .vint 0)]),
   ("temperature", .vdict []),
   ("fan", .vdict [("speed", .vint 0), ("profile", .vstr "Unknown")]),
   ("processes", .vlist []),
   ("disk", .vdict [("total", .vint 0), ("used", .vint 0), ("available", .vint 0)])]

/-- Sanity: the benign handle yields the all-defaults snapshot. -/
lemma baseHandle_default_snapshot :
    (get_jetson_info false none (.ok baseHandle)).1 = baseSnap := rfl

/-- The categories the benign handle produces, as a `Cats` record. -/
def baseCats : Cats where
  board := .vdict [("model", .vstr "Unknown"), ("serial", .vstr "Unknown"),
                   ("l4t", .vstr "Unknown"), ("jetpack", .vstr "Unknown"),
                   ("module", .vstr "Unknown")]
  libraries := .vdict []
  nvpmodel := .vdict [("name", .vstr "Unknown"), ("id", .vint (-1)),
                      ("models", .vlist [])]
  jetson_clocks := .vdict [("active", .vbool false), ("status", .vstr "inactive"),
                           ("boot", .vbool false)]
  cpu := .vdict [("total_user", .vint 0), ("total_system", .vint 0),
                 ("total_idle", .vint 0), ("online_cores", .vint 0)]
  gpu := .vdict [("load", .vint 0), ("curr_freq", .vint 0), ("max_freq", .vint 0)]
  engines := .vdict []
  ram := .vdict [("total", .vint 0), ("used", .vint 0), ("free", .vint 0)]
  swap := .vdict [("total", .vint 0), ("used", .vint 0)]
  temperature := .vdict []
  fan := .vdict [("speed", .vint 0), ("profile", .vstr "Unknown")]
  processes := .vlist []
  disk := .vdict [("total", .vint 0), ("used", .vint 0), ("available", .vint 0)]

lemma snapshotCats_baseHandle : snapshotCats baseHandle = .ok baseCats := rfl

/-- Bind of a successful `Except` computation reduces to the continuation. -/
lemma ok_bind {α β : Type} (a : α) (f : α → Except PyErr β) :
    (Except.ok a >>= f : Except PyErr β) = f a := rfl

/-- The key of every category entry, in source order. -/
lemma catsList_keys (c : Cats) :
    (catsList c).map Prod.fst =
      ["board", "libraries", "nvpmodel", "jetson_clocks", "cpu", "gpu",
       "engines", "ram", "swap", "temperature", "fan", "processes", "disk"] := rfl

/-- Every key contributed by the management actions is one of the four
action keys. -/
lemma mem_actionsFor_keys (h : Handle) (ec : Bool) (nv : Option String) (k : String) :
    k ∈ (actionsFor h ec nv).map Prod.fst →
      k = "clocks_action" ∨ k = "clocks_action_error" ∨
      k = "nvpmodel_action" ∨ k = "nvpmodel_action_error" := by
  unfold actionsFor clocksActionPart nvpActionPart
  split
  · rw [List.map_append]
    intro hk
    rcases List.mem_append.mp hk with hk | hk
    · split at hk
      · split at hk <;> simp at hk <;> simp [hk]
      · simp at hk
    · split at hk
      · split at hk <;> simp at hk <;> simp [hk]
      · simp at hk
  · intro hk
    simp at hk

/-- `"error"` is never an action key. -/
lemma error_notMem_actionsFor (h : Handle) (ec : Bool) (nv : Option String) :
    "error" ∉ (actionsFor h ec nv).map Prod.fst := by
  intro hk
  rcases mem_actionsFor_keys h ec nv _ hk with h1 | h1 | h1 | h1 <;> simp at h1

/-- Characterisation of the returned dict on an acquired handle. -/
lemma get_jetson_info_fst (ec : Bool) (nv : Option String) (h : Handle) :
    (get_jetson_info ec nv (.ok h)).1 =
      (if h.ok2 then
         match snapshotCats h with
         | .ok c => actionsFor h ec nv ++ catsList c
         | .error e => [("error", .vstr e.render)]
       else [("error", .vstr "jtop is not ok (service might not be running)")]) := rfl

/-- Characterisation of the action trace on an acquired handle. -/
lemma get_jetson_info_snd (ec : Bool) (nv : Option String) (h : Handle) :
    (get_jetson_info ec nv (.ok h)).2 =
      ⟨h.ok1 && ec, if h.ok1 then nv.map nvpVal else none⟩ := rfl

/--
C1: for every combination of inputs (the `enable_clocks` flag and the
optional power-model string) and every behaviour of the backend handle
(including acquisition failure), `get_jetson_info` returns either a
mapping whose single key is `error` with a string message, or a snapshot
mapping that contains no top-level `error` key; being a total function of
the behaviour, no exception escapes it.
-/
theorem get_jetson_info_result_shape (ec : Bool) (nv : Option String)
    (acq : Except PyErr Handle) :
    (∃ m, (get_jetson_info ec nv acq).1 = [("error", PyVal.vstr m)]) ∨
      "error" ∉ ((get_jetson_info ec nv acq).1).map Prod.fst := by
  rcases acq with e | h
  · exact Or.inl ⟨e.render, rfl⟩
  rw [get_jetson_info_fst]
  cases hok2 : h.ok2
  · exact Or.inl ⟨"jtop is not ok (service might not be running)", rfl⟩
  · cases hcats : snapshotCats h with
    | error e => exact Or.inl ⟨e.render, rfl⟩
    | ok c =>
      right
      show "error" ∉ (actionsFor h ec nv ++ catsList c).map Prod.fst
      rw [List.map_append]
      intro hmem
      rcases List.mem_append.mp hmem with hm | hm
      · exact error_notMem_actionsFor h ec nv hm
      · rw [catsList_keys] at hm
        simp at hm

/-- A handle that is not ready at the first check but ready at the second. -/
def hC3 : Handle := { baseHandle with ok1 := false }

/--
C3 counterexample: a handle reporting not-ready at the initial readiness
check but ready at the re-check yields the full default snapshot, not the
single-key error mapping the claim demands.
-/
theorem c3_counterexample :
    (get_jetson_info true (some "2") (.ok hC3)).1 = baseSnap ∧
      "error" ∉ baseSnap.map Prod.fst ∧
      (get_jetson_info true (some "2") (.ok hC3)).2 = ⟨false, none⟩ :=
  ⟨rfl, by decide, rfl⟩

/--
C3 (amended): when the handle reports not-ready at the initial readiness
check, no management action is attempted (the trace is empty) and no
`*_action` or `*_action_error` key appears in the output, for every value
of the flags; the output is exactly
`{"error": "jtop is not ok (service might not be running)"}` only when
the handle is also not ready at the second readiness check.
-/
theorem c3_amended (ec : Bool) (nv : Option String) (h : Handle)
    (h1 : h.ok1 = false) :
    (get_jetson_info ec nv (.ok h)).2 = ⟨false, none⟩ ∧
    "clocks_action" ∉ ((get_jetson_info ec nv (.ok h)).1).map Prod.fst ∧
    "clocks_action_error" ∉ ((get_jetson_info ec nv (.ok h)).1).map Prod.fst ∧
    "nvpmodel_action" ∉ ((get_jetson_info ec nv (.ok h)).1).map Prod.fst ∧
    "nvpmodel_action_error" ∉ ((get_jetson_info ec nv (.ok h)).1).map Prod.fst ∧
    (h.ok2 = false →
      (get_jetson_info ec nv (.ok h)).1
        = [("error", .vstr "jtop is not ok (service might not be running)")]) := by
  have hacts : actionsFor h ec nv = [] := by
    unfold actionsFor
    rw [h1]
    simp
  have hkeys : ∀ k : String, k ≠ "error" →
      (∀ c : Cats, k ∉ (catsList c).map Prod.fst) →
      k ∉ ((get_jetson_info ec nv (.ok h)).1).map Prod.fst := by
    intro k hke hkc
    rw [get_jetson_info_fst]
    cases hok2 : h.ok2
    · show k ∉ ["error"]
      simp [hke]
    · cases hcats : snapshotCats h with
      | error e =>
        show k ∉ ["error"]
        simp [hke]
      | ok c =>
        show k ∉ (actionsFor h ec nv ++ catsList c).map Prod.fst
        rw [hacts, List.nil_append]
        exact hkc c
  refine ⟨by rw [get_jetson_info_snd, h1]; rfl, ?_, ?_, ?_, ?_, ?_⟩
  · exact hkeys _ (by simp) (fun c => by rw [catsList_keys]; simp)
  · exact hkeys _ (by simp) (fun c => by rw [catsList_keys]; simp)
  · exact hkeys _ (by simp) (fun c => by rw [catsList_keys]; simp)
  · exact hkeys _ (by simp) (fun c => by rw [catsList_keys]; simp)
  · intro hok2
    rw [get_jetson_info_fst, hok2]
    rfl

/-- A handle that is not ready at either readiness check. -/
def hC3b : Handle := { baseHandle with ok1 := false, ok2 := false }

/-- Witness for the amended C3 at a concrete not-ready handle. -/
theorem c3_witness :
    (get_jetson_info true (some "2") (.ok hC3b)).2 = ⟨false, none⟩ ∧
    "clocks_action" ∉ ((get_jetson_info true (some "2") (.ok hC3b)).1).map Prod.fst ∧
    "clocks_action_error" ∉ ((get_jetson_info true (some "2") (.ok hC3b)).1).map Prod.fst ∧
    "nvpmodel_action" ∉ ((get_jetson_info true (some "2") (.ok hC3b)).1).map Prod.fst ∧
    "nvpmodel_action_error" ∉ ((get_jetson_info true (some "2") (.ok hC3b)).1).map Prod.fst ∧
    (get_jetson_info true (some "2") (.ok hC3b)).1
      = [("error", .vstr "jtop is not ok (service might not be running)")] := by
  obtain ⟨a, b, c, d, e, f⟩ := c3_amended true (some "2") hC3b rfl
  exact ⟨a, b, c, d, e, f rfl⟩

/-- A ready handle whose backend reports a swap `free` figure. -/
def hC5 : Handle :=
  { baseHandle with
    memory := .ok (.vdict [("SWAP", .vdict [("tot", .vint 7), ("used", .vint 3),
                                            ("free", .vint 4)])]) }

/--
C5 counterexample: even when the backend reports a swap `free` value, the
emitted swap category holds only `total` and `used` — no `free` key, so
the claimed total/used/free triple is not produced.
-/
theorem c5_counterexample :
    List.lookup "swap" (get_jetson_info false none (.ok hC5)).1
      = some (.vdict [("total", .vint 7), ("used", .vint 3)]) ∧
    "free" ∉ [("total", PyVal.vint 7), ("used", PyVal.vint 3)].map Prod.fst :=
  ⟨rfl, by decide⟩

/--
C5 (amended): for every ready handle, the swap category reports only
`total` and `used`, taken from the backend's `SWAP.tot` and `SWAP.used`
in backend units with no conversion, each defaulting to 0 when absent;
no `free` figure is emitted for swap.
-/
theorem c5_amended (t u x : PyVal) :
    List.lookup "swap"
        (get_jetson_info false none
          (.ok { baseHandle with
                 memory := .ok (.vdict [("SWAP", .vdict [("tot", t), ("used", u),
                                                         ("free", x)])]) })).1
      = some (.vdict [("total", t), ("used", u)]) ∧
    List.lookup "swap" (get_jetson_info false none (.ok baseHandle)).1
      = some (.vdict [("total", .vint 0), ("used", .vint 0)]) :=
  ⟨rfl, rfl⟩

/-- A ready handle whose clocks-control object exists but is falsy
(inactive), with a real status string and boot flag. -/
def hC6 : Handle :=
  { baseHandle with clocksObj := .ok (some ⟨false, "running", true⟩) }

/--
C6 counterexample: an existing but falsy (inactive) clocks-control object
is reported with the same defaults as an absent one — its real status and
boot flag are not reported, contradicting the claim that only a missing
object yields the defaults.
-/
theorem c6_counterexample :
    List.lookup "jetson_clocks" (get_jetson_info false none (.ok hC6)).1
      = some (.vdict [("active", .vbool false), ("status", .vstr "inactive"),
                      ("boot", .vbool false)]) ∧
    PyVal.vdict [("active", .vbool false), ("status", .vstr "inactive"),
                 ("boot", .vbool false)]
      ≠ .vdict [("active", .vbool false), ("status", .vstr "running"),
                ("boot", .vbool true)] := by
  refine ⟨rfl, ?_⟩
  intro hEq
  simp at hEq

/--
C6 (amended): the branch is on the clocks-control object's truthiness,
not its existence: a truthy object is reported with active=true, its
status string and its boot flag; an existing-but-falsy object and an
absent object are both reported as active=false, status="inactive",
boot=false.
-/
theorem c6_amended (st : String) (b : Bool) :
    List.lookup "jetson_clocks"
        (get_jetson_info false none
          (.ok { baseHandle with clocksObj := .ok (some ⟨true, st, b⟩) })).1
      = some (.vdict [("active", .vbool true), ("status", .vstr st),
                      ("boot", .vbool b)]) ∧
    List.lookup "jetson_clocks"
        (get_jetson_info false none
          (.ok { baseHandle with clocksObj := .ok (some ⟨false, st, b⟩) })).1
      = some (.vdict [("active", .vbool false), ("status", .vstr "inactive"),
                      ("boot", .vbool false)]) ∧
    List.lookup "jetson_clocks" (get_jetson_info false none (.ok baseHandle)).1
      = some (.vdict [("active", .vbool false), ("status", .vstr "inactive"),
                      ("boot", .vbool false)]) :=
  ⟨rfl, rfl, rfl⟩

/-- A ready handle with a temperature sensor flagged online but missing
its `temp` value. -/
def hC2 : Handle :=
  { baseHandle with
    temperature := .ok (.vdict [("CPU", .vdict [("online", .vbool true)])]) }

/--
C2 counterexample: a temperature sensor reported online but missing its
temperature value raises `KeyError('temp')` inside the category read,
which aborts the whole snapshot and yields the single error record — it
is not degraded to a default as the claim requires.
-/
theorem c2_counterexample :
    (get_jetson_info false none (.ok hC2)).1
      = [("error", .vstr "Unexpected error: 'temp'")] := rfl

/-- A ready handle with one online temperature sensor carrying a value
and a fan speed reported as a two-element list. -/
def hC2good (s : String) (t : Int) (x y : PyVal) : Handle :=
  { baseHandle with
    temperature := .ok (.vdict [(s, .vdict [("online", .vbool true),
                                            ("temp", .vint t)])]),
    fan := .ok (.vdict [("speed", .vlist [x, y])]) }

/--
C2 (amended): for every ready handle, sub-fields read through defaulted
lookups degrade to defaults, and a fan speed reported as a non-empty list
degrades to its first element; but a category read that raises — in
particular a temperature sensor reported online but missing its
temperature value — aborts the whole snapshot and replaces it with the
single record `{"error": "Unexpected error: ..."}`; only total handle
unreadiness yields the "not ok" error record instead.
-/
theorem c2_amended (s : String) (t : Int) (x y : PyVal) :
    (get_jetson_info false none
        (.ok { baseHandle with
               temperature := .ok (.vdict [(s, .vdict [("online", .vbool true)])]) })).1
      = [("error", .vstr "Unexpected error: 'temp'")] ∧
    List.lookup "temperature"
        (get_jetson_info false none (.ok (hC2good s t x y))).1
      = some (.vdict [(s, .vint t)]) ∧
    List.lookup "fan"
        (get_jetson_info false none (.ok (hC2good s t x y))).1
      = some (.vdict [("speed", x), ("profile", .vstr "Unknown")]) ∧
    (get_jetson_info false none
        (.ok { baseHandle with ok2 := false })).1
      = [("error", .vstr "jtop is not ok (service might not be running)")] :=
  ⟨rfl, rfl, rfl, rfl⟩

/--
C10: on a ready handle whose backend reports the fan `speed` field as an
empty list, the extraction indexes element 0 of the empty list, the
`IndexError` aborts the whole snapshot, and the output is exactly
`{"error": "Unexpected error: list index out of range"}` — no fan default
of 0 is applied for the empty-list shape.  The other fan fields are
arbitrary.
-/
theorem c10_fan_empty_list (rest : List (String × PyVal)) :
    (get_jetson_info false none
        (.ok { baseHandle with
               fan := .ok (.vdict (("speed", .vlist []) :: rest)) })).1
      = [("error", .vstr "Unexpected error: list index out of range")] := rfl

/-- A ready handle whose clocks action raises the backend-specific
exception. -/
def hC4 : Handle := { baseHandle with clocksSet := .error (.jtop "boom") }

/--
C4 counterexample: a `JtopException` raised during the clocks management
action is caught by the inline handler — it becomes
`clocks_action_error` with the bare message inside an otherwise complete
snapshot, not the claimed `{"error": "JtopException: ..."}` mapping.
-/
theorem c4_counterexample :
    (get_jetson_info true none (.ok hC4)).1
      = ("clocks_action_error", .vstr "boom") :: baseSnap ∧
    "error" ∉ ((get_jetson_info true none (.ok hC4)).1).map Prod.fst :=
  ⟨rfl, by decide⟩

/--
C4 (amended): a `JtopException` raised during handle acquisition or
during a category read yields `{"error": "JtopException: <message>"}`,
and any other exception there yields
`{"error": "Unexpected error: <message>"}`; but a `JtopException` raised
during a management action is caught inline and recorded under
`clocks_action_error` / `nvpmodel_action_error` with the bare message,
the snapshot continuing.
-/
theorem c4_amended (m : String) (ec : Bool) (nv : Option String) :
    get_jetson_info ec nv (.error (.jtop m))
      = ([("error", .vstr ("JtopException: " ++ m))], ⟨false, none⟩) ∧
    get_jetson_info ec nv (.error (.other m))
      = ([("error", .vstr ("Unexpected error: " ++ m))], ⟨false, none⟩) ∧
    (get_jetson_info true none
        (.ok { baseHandle with clocksSet := .error (.jtop m) })).1
      = ("clocks_action_error", .vstr m) :: baseSnap ∧
    (get_jetson_info false (some "0")
        (.ok { baseHandle with setNvp := fun _ => .error (.jtop m) })).1
      = ("nvpmodel_action_error", .vstr m) :: baseSnap ∧
    (get_jetson_info false none
        (.ok { baseHandle with board := .error (.jtop m) })).1
      = [("error", .vstr ("JtopException: " ++ m))] :=
  ⟨rfl, rfl, rfl, rfl, rfl⟩

/-- With the clocks flag off, only the nvpmodel action can contribute keys. -/
lemma mem_actionsFor_false_keys (h : Handle) (nv : Option String) (k : String) :
    k ∈ (actionsFor h false nv).map Prod.fst →
      k = "nvpmodel_action" ∨ k = "nvpmodel_action_error" := by
  unfold actionsFor nvpActionPart
  split
  · intro hk
    simp only [if_neg (by simp : ¬ false = true), List.nil_append] at hk
    split at hk
    · split at hk <;> simp at hk <;> simp [hk]
    · simp at hk
  · intro hk
    simp at hk

/-- A ready handle whose board read raises a generic exception while the
clocks action succeeds. -/
def hC7 : Handle := { baseHandle with board := .error (.other "io fail") }

/--
C7 counterexample: a handle that is ready at both checks and whose clocks
action succeeds, but whose board category read raises, produces the
single error record — the output does not contain `clocks_action` even
though the action succeeded, contradicting the claim.
-/
theorem c7_counterexample :
    (get_jetson_info true none (.ok hC7)).1
      = [("error", .vstr "Unexpected error: io fail")] ∧
    hC7.ok1 = true ∧ hC7.ok2 = true ∧ hC7.clocksSet = .ok () ∧
    "clocks_action" ∉ ((get_jetson_info true none (.ok hC7)).1).map Prod.fst :=
  ⟨rfl, rfl, rfl, rfl, by decide⟩

/--
C7 (amended): for every invocation with `enable_clocks=true` on a handle
that is ready at both checks and whose category reads complete: if the
clocks action succeeds the output is the `clocks_action` entry consed
onto the output of the same invocation without the flag, and contains no
`clocks_action_error`; if it fails, the output is the
`clocks_action_error` entry (bare message) consed on, with no
`clocks_action`; in both cases snapshot collection continues.
-/
theorem c7_amended (nv : Option String) (h : Handle) (c : Cats) (e : PyErr)
    (h1 : h.ok1 = true) (h2 : h.ok2 = true) (hc : snapshotCats h = .ok c) :
    (h.clocksSet = .ok () →
      (get_jetson_info true nv (.ok h)).1
        = ("clocks_action", .vstr "Enabled jetson_clocks and set to boot")
            :: (get_jetson_info false nv (.ok h)).1 ∧
      "clocks_action_error" ∉ ((get_jetson_info true nv (.ok h)).1).map Prod.fst) ∧
    (h.clocksSet = .error e →
      (get_jetson_info true nv (.ok h)).1
        = ("clocks_action_error", .vstr e.msg)
            :: (get_jetson_info false nv (.ok h)).1 ∧
      "clocks_action" ∉ ((get_jetson_info true nv (.ok h)).1).map Prod.fst) := by
  have hres : ∀ ec : Bool,
      (get_jetson_info ec nv (.ok h)).1 = actionsFor h ec nv ++ catsList c := by
    intro ec
    rw [get_jetson_info_fst, h2, hc]
    rfl
  have hactsT : actionsFor h true nv = clocksActionPart h ++ actionsFor h false nv := by
    unfold actionsFor
    rw [h1]
    simp
  constructor
  · intro hok
    have e1 : clocksActionPart h
        = [("clocks_action", .vstr "Enabled jetson_clocks and set to boot")] := by
      unfold clocksActionPart
      rw [hok]
    constructor
    · rw [hres true, hres false, hactsT, e1]
      simp
    · rw [hres true, hactsT, e1]
      intro hmem
      simp only [List.map_append, List.mem_append] at hmem
      rcases hmem with (hm | hm) | hm
      · simp at hm
      · rcases mem_actionsFor_false_keys h nv _ hm with hx | hx <;> simp at hx
      · rw [catsList_keys] at hm
        simp at hm
  · intro herr
    have e1 : clocksActionPart h = [("clocks_action_error", .vstr e.msg)] := by
      unfold clocksActionPart
      rw [herr]
    constructor
    · rw [hres true, hres false, hactsT, e1]
      simp
    · rw [hres true, hactsT, e1]
      intro hmem
      simp only [List.map_append, List.mem_append] at hmem
      rcases hmem with (hm | hm) | hm
      · simp at hm
      · rcases mem_actionsFor_false_keys h nv _ hm with hx | hx <;> simp at hx
      · rw [catsList_keys] at hm
        simp at hm

/-- A ready handle whose clocks action fails with a generic exception. -/
def hC7err : Handle := { baseHandle with clocksSet := .error (.other "nope") }

/-- Witness for the amended C7 at concrete handles for both outcomes. -/
theorem c7_witness :
    ((get_jetson_info true none (.ok baseHandle)).1
        = ("clocks_action", .vstr "Enabled jetson_clocks and set to boot")
            :: (get_jetson_info false none (.ok baseHandle)).1 ∧
      "clocks_action_error"
        ∉ ((get_jetson_info true none (.ok baseHandle)).1).map Prod.fst) ∧
    ((get_jetson_info true none (.ok hC7err)).1
        = ("clocks_action_error", .vstr "nope")
            :: (get_jetson_info false none (.ok hC7err)).1 ∧
      "clocks_action" ∉ ((get_jetson_info true none (.ok hC7err)).1).map Prod.fst) := by
  constructor
  · exact (c7_amended none baseHandle baseCats (.other "x") rfl rfl
      snapshotCats_baseHandle).1 rfl
  · exact (c7_amended none hC7err baseCats (.other "nope") rfl rfl rfl).2 rfl

/--
C8: with a target power model requested on a handle that is ready at the
initial check, the value assigned to the backend power-model property is
the integer when the argument parses as one, else the string unchanged;
in particular "2" is assigned as the integer 2 and "Quiet" as the string
"Quiet".
-/
theorem c8_nvpmodel_value (ec : Bool) (h : Handle) (s : String)
    (h1 : h.ok1 = true) :
    (get_jetson_info ec (some s) (.ok h)).2.nvpAssigned = some (nvpVal s) ∧
    ((pyIntParse s).elim (nvpVal s = .str s) fun n => nvpVal s = .int n) ∧
    nvpVal "2" = .int 2 ∧ nvpVal "Quiet" = .str "Quiet" := by
  refine ⟨?_, ?_, by decide, by decide⟩
  · rw [get_jetson_info_snd, h1]
    rfl
  · cases hp : pyIntParse s with
    | none =>
      simp only [hp, Option.elim]
      unfold nvpVal
      rw [hp]
    | some n =>
      simp only [hp, Option.elim]
      unfold nvpVal
      rw [hp]

/-- Witness for C8 on the benign handle with the argument "2". -/
theorem c8_witness :
    (get_jetson_info false (some "2") (.ok baseHandle)).2.nvpAssigned
      = some (.int 2) ∧
    nvpVal "2" = .int 2 ∧ nvpVal "Quiet" = .str "Quiet" := by
  obtain ⟨a, b, c, d⟩ := c8_nvpmodel_value false baseHandle "2" rfl
  exact ⟨a.trans (by decide), c, d⟩

/-- The claim-side description of the processes category: keep exactly
the records with at least 10 positional fields, and take pid, user,
accelerator-memory and name from positions 0, 1, 8 and 9. -/
def procTarget (ps : List (List PyVal)) : List PyVal :=
  (ps.filter fun p => 10 ≤ p.length).map fun p =>
    PyVal.vdict [("pid", p.getD 0 .vnone), ("user", p.getD 1 .vnone),
                 ("gpu_mem", p.getD 8 .vnone), ("name", p.getD 9 .vnone)]

/-- The source's process loop agrees with the filter-and-project
description for every list of raw list records. -/
lemma procEntries_map (ps : List (List PyVal)) :
    procEntries (ps.map PyVal.vlist) = .ok (procTarget ps) := by
  induction ps with
  | nil => rfl
  | cons p rest ih =>
    rw [List.map_cons]
    simp only [procEntries, pyLen, ok_bind]
    by_cases hlen : 10 ≤ p.length
    · rw [if_pos hlen]
      simp only [pyIdx]
      rw [if_pos (by omega : 0 < p.length), if_pos (by omega : 1 < p.length),
          if_pos (by omega : 8 < p.length), if_pos (by omega : 9 < p.length)]
      simp only [ok_bind, ih]
      unfold procTarget
      rw [List.filter_cons_of_pos (by simpa using hlen), List.map_cons]
    · rw [if_neg hlen, ih]
      unfold procTarget
      rw [List.filter_cons_of_neg (by simpa using hlen)]

/-- A ready handle reporting a given list of raw process records. -/
def hC9 (ps : List (List PyVal)) : Handle :=
  { baseHandle with processes := .ok (.vlist (ps.map PyVal.vlist)) }

/--
C9: for every list of raw positional process records reported by the
backend, the processes category contains exactly one entry per record of
length at least 10, with pid, user, accelerator-memory and name taken
from positions 0, 1, 8 and 9; records with fewer than 10 fields are
silently excluded.
-/
theorem c9_processes (ps : List (List PyVal)) :
    List.lookup "processes" (get_jetson_info false none (.ok (hC9 ps))).1
      = some (.vlist (procTarget ps)) := by
  have hs : snapshotCats (hC9 ps)
      = procEntries (ps.map PyVal.vlist) >>= fun procs =>
          Except.ok { baseCats with processes := .vlist procs } := rfl
  have hres : (get_jetson_info false none (.ok (hC9 ps))).1
      = actionsFor (hC9 ps) false none
          ++ catsList { baseCats with processes := .vlist (procTarget ps) } := by
    rw [get_jetson_info_fst, hs, procEntries_map]
    rfl
  rw [hres]
  rfl

end JetsonHelper
